import Mathlib

/-!
Verification of the cv-maker repository's core engines against its
natural-language specification.

The Python source stores all monetary quantities as `decimal.Decimal` and
performs only exact additions, subtractions and multiplications on the
paths verified here; we embed those quantities as exact rationals (`ℚ`).
`Decimal` division raises on a zero divisor, which we embed as an
`Option`-valued division.
-/

namespace CvMaker

/-- Python's `str.lower()` (character-wise lowercasing; for the ASCII
plan identifiers compared against it this agrees with Python). -/
def pyLower (s : String) : String := ⟨s.data.map Char.toLower⟩

/-! ## Tax calculator (src/backend/tax_calculator.py) -/

/-- `TaxConfig` dataclass: UK tax year configuration constants. -/
structure TaxConfig where
  personal_allowance : ℚ
  basic_rate : ℚ
  higher_rate : ℚ
  additional_rate : ℚ
  higher_rate_threshold : ℚ
  additional_rate_threshold : ℚ
  ni_rate_high : ℚ
  ni_rate_low : ℚ
  ni_threshold : ℚ
  student_loan_plan1_threshold : ℚ
  student_loan_plan1_rate : ℚ
  student_loan_plan2_threshold : ℚ
  student_loan_plan2_rate : ℚ
deriving Repr, DecidableEq

/-- The default `TaxConfig()` values (2025/26 tax year). -/
def defaultTaxConfig : TaxConfig where
  personal_allowance := 12750
  basic_rate := 20/100
  higher_rate := 40/100
  additional_rate := 45/100
  higher_rate_threshold := 37700
  additional_rate_threshold := 125140
  ni_rate_high := 8/100
  ni_rate_low := 2/100
  ni_threshold := 50270
  student_loan_plan1_threshold := 26065
  student_loan_plan1_rate := 9/100
  student_loan_plan2_threshold := 27295
  student_loan_plan2_rate := 9/100

/-- Result dict of `TaxCalculator.calculate_income_tax`. -/
structure TaxResult where
  total : ℚ
  basic : ℚ
  higher : ℚ
  additional : ℚ
deriving Repr, DecidableEq

/-- `TaxCalculator.calculate_income_tax`: tiered marginal income tax.
The Python mutates a local `taxable_income` as it consumes the upper
tiers; we mirror that with successive `let` rebindings. -/
def calculate_income_tax (cfg : TaxConfig) (taxable_income : ℚ) : TaxResult :=
  if taxable_income ≤ 0 then
    { total := 0, basic := 0, higher := 0, additional := 0 }
  else
    let additional_tax :=
      if taxable_income > cfg.additional_rate_threshold then
        (taxable_income - cfg.additional_rate_threshold) * cfg.additional_rate
      else 0
    let income1 :=
      if taxable_income > cfg.additional_rate_threshold then
        cfg.additional_rate_threshold
      else taxable_income
    let higher_tax :=
      if income1 > cfg.higher_rate_threshold then
        (income1 - cfg.higher_rate_threshold) * cfg.higher_rate
      else 0
    let income2 :=
      if income1 > cfg.higher_rate_threshold then cfg.higher_rate_threshold
      else income1
    let basic_tax := income2 * cfg.basic_rate
    { total := basic_tax + higher_tax + additional_tax
      basic := basic_tax
      higher := higher_tax
      additional := additional_tax }

/-- `TaxCalculator.calculate_national_insurance`: two-tier cascade,
`ni_rate_low` on income above `ni_threshold`, `ni_rate_high` on the rest. -/
def calculate_national_insurance (cfg : TaxConfig) (income : ℚ) : ℚ :=
  if income ≤ 0 then 0
  else
    let upper :=
      if income > cfg.ni_threshold then
        (income - cfg.ni_threshold) * cfg.ni_rate_low
      else 0
    let income1 := if income > cfg.ni_threshold then cfg.ni_threshold else income
    upper + income1 * cfg.ni_rate_high

/-- `TaxCalculator.calculate_student_loan`: plan selection is on
`plan.lower()`; an unknown plan raises `ValueError`, embedded as `none`. -/
def calculate_student_loan (cfg : TaxConfig) (gross : ℚ) (plan : String) :
    Option ℚ :=
  if pyLower plan = "plan1" then
    some (if gross ≤ cfg.student_loan_plan1_threshold then 0
          else (gross - cfg.student_loan_plan1_threshold) * cfg.student_loan_plan1_rate)
  else if pyLower plan = "plan2" then
    some (if gross ≤ cfg.student_loan_plan2_threshold then 0
          else (gross - cfg.student_loan_plan2_threshold) * cfg.student_loan_plan2_rate)
  else
    none

/-- `SalaryBreakdown` dataclass (the `tax_breakdown` dict is inlined as
its three entries). -/
structure SalaryBreakdown where
  gross_yearly : ℚ
  gross_monthly : ℚ
  net_yearly : ℚ
  net_monthly : ℚ
  income_tax : ℚ
  national_insurance : ℚ
  student_loan : ℚ
  pension : ℚ
  effective_tax_rate : ℚ
  tax_basic : ℚ
  tax_higher : ℚ
  tax_additional : ℚ
deriving Repr, DecidableEq

/-- `TaxCalculator.calculate_net_salary`.  The only failing path is an
unknown student-loan plan (propagated from `calculate_student_loan`). -/
def calculate_net_salary (cfg : TaxConfig) (gross : ℚ)
    (pension_pct : ℚ) (include_student_loan : Bool)
    (student_loan_plan : String) : Option SalaryBreakdown :=
  let pension := gross * pension_pct
  let sl : Option ℚ :=
    if include_student_loan then calculate_student_loan cfg gross student_loan_plan
    else some 0
  match sl with
  | none => none
  | some student_loan =>
    let taxable_income := gross - cfg.personal_allowance - pension
    let tax_result := calculate_income_tax cfg taxable_income
    let income_tax := tax_result.total
    let national_insurance := calculate_national_insurance cfg taxable_income
    let total_deductions := income_tax + national_insurance + student_loan + pension
    let net_yearly := gross - total_deductions
    let effective_tax_rate :=
      if gross > 0 then total_deductions / gross * 100 else 0
    some
      { gross_yearly := gross
        gross_monthly := gross / 12
        net_yearly := net_yearly
        net_monthly := net_yearly / 12
        income_tax := income_tax
        national_insurance := national_insurance
        student_loan := student_loan
        pension := pension
        effective_tax_rate := effective_tax_rate
        tax_basic := tax_result.basic
        tax_higher := tax_result.higher
        tax_additional := tax_result.additional }

/-- `Decimal` division: raises on a zero divisor. -/
def decDiv (a b : ℚ) : Option ℚ :=
  if b = 0 then none else some (a / b)

/-- One category of the `recommend_budget` dict: `total`, named `items`,
and the `percentage` added afterwards. -/
structure BudgetCategory where
  total : ℚ
  items : List (String × ℚ)
  percentage : ℚ
deriving Repr, DecidableEq

/-- The dict returned by `recommend_budget`. -/
structure Budget where
  income : ℚ
  essentials : BudgetCategory
  savings : BudgetCategory
  spending : BudgetCategory
deriving Repr, DecidableEq

/-- `recommend_budget`: fixed 50/30/20 allocation.  The percentage loop
computes `total / monthly_income * 100` for each category, which raises
on `monthly_income = 0`; that failure is embedded as `none`. -/
def recommend_budget (monthly_income : ℚ) : Option Budget :=
  let essentials_total := monthly_income * (50/100)
  let savings_total := monthly_income * (20/100)
  let spending_total := monthly_income * (30/100)
  let essentials_items : List (String × ℚ) :=
    [("Rent", monthly_income * (35/100)),
     ("Bills", monthly_income * (5/100)),
     ("Groceries", monthly_income * (7/100)),
     ("Phone", monthly_income * (1/100)),
     ("Medical Bills", monthly_income * (1/100)),
     ("Gym", monthly_income * (1/100))]
  let savings_items : List (String × ℚ) :=
    [("Savings", monthly_income * (10/100)),
     ("Investments", monthly_income * (10/100))]
  let spending_items : List (String × ℚ) :=
    [("Eating Out", monthly_income * (5/100)),
     ("Pub", monthly_income * (5/100)),
     ("Flowers", monthly_income * (5/100)),
     ("Clothes", monthly_income * (5/100)),
     ("Skincare", monthly_income * (5/100)),
     ("Vitamins", monthly_income * (5/100))]
  match decDiv essentials_total monthly_income with
  | none => none
  | some p_ess =>
    match decDiv savings_total monthly_income with
    | none => none
    | some p_sav =>
      match decDiv spending_total monthly_income with
      | none => none
      | some p_sp =>
        some
          { income := monthly_income
            essentials :=
              { total := essentials_total, items := essentials_items
                percentage := p_ess * 100 }
            savings :=
              { total := savings_total, items := savings_items
                percentage := p_sav * 100 }
            spending :=
              { total := spending_total, items := spending_items
                percentage := p_sp * 100 } }

/-! ## Lego blocks (src/backend/lego_blocks.py) -/

/-- Python's substring containment test `needle in hay`. -/
def strContains (hay needle : String) : Bool :=
  hay.data.tails.any (fun suffix => needle.data.isPrefixOf suffix)

/-- The `LegoBlock` dataclass. -/
structure LegoBlock where
  category : String
  subcategory : Option String
  title : String
  content : String
  skills : List String
  keywords : List String
  strength_level : String
  role_types : List String
  company_types : List String
deriving Repr, DecidableEq

/-- Contribution of one requirement phrase to a block's score in
`LegoBlockManager.rank_blocks`: the if/elif/elif chain over content,
title and keywords. -/
def reqContribution (block : LegoBlock) (req : String) : ℚ :=
  if strContains (pyLower block.content) (pyLower req) then 3
  else if strContains (pyLower block.title) (pyLower req) then 2
  else if block.keywords.any
      (fun kw => strContains (pyLower kw) (pyLower req)) then 3/2
  else 0

/-- Contribution of one required skill to a block's score in
`LegoBlockManager.rank_blocks`. -/
def skillContribution (block : LegoBlock) (skill : String) : ℚ :=
  if block.skills.any (fun s => strContains (pyLower s) (pyLower skill)) then 5/2
  else if strContains (pyLower block.content) (pyLower skill) then 3/2
  else 0

/-- The `strength_boost` dict lookup with default 0. -/
def strengthBoost (level : String) : ℚ :=
  if level = "essential" then 2
  else if level = "strong" then 1
  else if level = "good" then 1/2
  else 0

/-- The preferred-role bonus (`if preferred_role and preferred_role in
block.role_types`); an absent or empty role is falsy in Python. -/
def roleBonus (block : LegoBlock) : Option String → ℚ
  | none => 0
  | some r => if r ≠ "" ∧ block.role_types.contains r then 2 else 0

/-- The keyword-density bonus: 0.5 per requirement phrase occurring in
the content (added only when the count is positive — which for a count
of zero coincides with adding nothing). -/
def densityBonus (block : LegoBlock) (job_requirements : List String) : ℚ :=
  let matched := (job_requirements.filter
    (fun req => strContains (pyLower block.content) (pyLower req))).length
  if 0 < matched then (matched : ℚ) * (1/2) else 0

/-- Total score of one block in `LegoBlockManager.rank_blocks` (the
Python accumulates the same summands with `+=`). -/
def blockScore (block : LegoBlock)
    (job_requirements required_skills : List String)
    (preferred_role : Option String) : ℚ :=
  (job_requirements.map (reqContribution block)).sum
  + (required_skills.map (skillContribution block)).sum
  + roleBonus block preferred_role
  + strengthBoost block.strength_level
  + densityBonus block job_requirements

/-- Stable insertion step for a descending sort by `key`: the new
element goes before the first strictly smaller key, hence after earlier
elements with an equal key. -/
def insertDescBy {α β : Type} [LinearOrder β] (key : α → β) (x : α) :
    List α → List α
  | [] => [x]
  | y :: ys => if key y ≤ key x then x :: y :: ys else y :: insertDescBy key x ys

/-- Stable descending sort by `key`.  Python's `list.sort` (Timsort) is
stable; a stable descending sort is uniquely determined by its
permutation, sortedness and per-key order preservation, all proved
below, so this realizes `scored.sort(key=..., reverse=True)` exactly. -/
def sortDescBy {α β : Type} [LinearOrder β] (key : α → β) : List α → List α
  | [] => []
  | x :: xs => insertDescBy key x (sortDescBy key xs)

/-- `LegoBlockManager.rank_blocks`: score every block, then sort the
(block, score) pairs by score descending with a stable sort. -/
def rank_blocks (blocks : List LegoBlock)
    (job_requirements required_skills : List String)
    (preferred_role : Option String) : List (LegoBlock × ℚ) :=
  sortDescBy (fun p => p.2)
    (blocks.map (fun b =>
      (b, blockScore b job_requirements required_skills preferred_role)))

/-! ## CV generator fallback selection (src/backend/cv_generator.py) -/

/-- The `Job` fields read by `CVGenerator._select_blocks_fallback`
(`None` array fields behave exactly like empty lists there). -/
structure Job where
  role : String
  parsed_skills : List String
  parsed_requirements : List String
deriving Repr, DecidableEq

/-- Python's `str.split()` whitespace class (ASCII part). -/
def pyIsSpace (c : Char) : Bool :=
  c = ' ' || c = '\t' || c = '\n' || c = '\r' || c = '\x0b' || c = '\x0c'

/-- Helper for `splitWs`: accumulate the current word in reverse. -/
def splitWsAux : List Char → List Char → List String
  | [], acc => if acc = [] then [] else [String.mk acc.reverse]
  | c :: cs, acc =>
      if pyIsSpace c then
        if acc = [] then splitWsAux cs []
        else String.mk acc.reverse :: splitWsAux cs []
      else splitWsAux cs (c :: acc)

/-- Python's `str.split()` with no argument: split on whitespace runs,
discarding empty fields. -/
def splitWs (s : String) : List String := splitWsAux s.data []

/-- The `job_keywords` set of `_select_blocks_fallback`, represented by
the deduplicated list of its members (every use of the set is a
membership test or a count of distinct members, so this representation
is faithful and iteration order cannot matter). -/
def jobKeywords (job : Job) : List String :=
  ((job.parsed_skills.map pyLower) ++ (job.parsed_requirements.map pyLower)
    ++ splitWs (pyLower job.role)).dedup

/-- Block score in `_select_blocks_fallback`: +3 per block skill in the
keyword set, +2 per block keyword in it, +1 per distinct job keyword
occurring in the lowered "title content" text. -/
def fallbackScore (job : Job) (block : LegoBlock) : ℕ :=
  3 * block.skills.countP (fun s => (jobKeywords job).contains (pyLower s))
  + 2 * block.keywords.countP (fun k => (jobKeywords job).contains (pyLower k))
  + (jobKeywords job).countP
      (fun k => strContains (pyLower (block.title ++ " " ++ block.content)) k)

/-- `CVGenerator._select_blocks_fallback`: keep blocks with positive
score, sort by score descending (stable), take `max_blocks`, and return
the blocks. -/
def select_blocks_fallback (job : Job) (all_blocks : List LegoBlock)
    (max_blocks : ℕ) : List LegoBlock :=
  ((sortDescBy (fun p => p.1)
      ((all_blocks.map (fun b => (fallbackScore job b, b))).filter
        (fun p => 0 < p.1))).take max_blocks).map
    (fun p => p.2)

/-- `CVGenerator.select_blocks` on the no-LLM-client path: an empty
block universe yields `[]`, otherwise the keyword-matching fallback
selector runs (the job itself was already looked up by id). -/
def select_blocks_noLLM (job : Job) (all_blocks : List LegoBlock)
    (max_blocks : ℕ) : List LegoBlock :=
  if all_blocks = [] then [] else select_blocks_fallback job all_blocks max_blocks

/-- Concrete block used to witness the ranking theorems: the phrase
"Python" occurs in both its content and its title. -/
def sampleBlock : LegoBlock where
  category := "FULL-STACK DEVELOPMENT"
  subcategory := none
  title := "Built Python services"
  content := "Built Python microservices"
  skills := ["Python"]
  keywords := []
  strength_level := "good"
  role_types := []
  company_types := []

/-- Concrete job used to witness the selection theorem: its parsed
skills overlap `sampleBlock`'s skills. -/
def sampleJob : Job where
  role := ""
  parsed_skills := ["python"]
  parsed_requirements := []

/-! ## Keyword extraction (`LegoBlockManager._extract_keywords`)

The five `re.findall` calls are embedded directly: the two technology
patterns are word-bounded case-insensitive alternations of literal
tokens, and the three metric patterns are small deterministic shapes
(digits, an optional one-character class, an optional plus, whitespace,
a unit word).  The regex engine's left-to-right scan and its
backtracking into an alternation or an optional element are modelled
explicitly where they can fire. -/

/-- Word characters for the `\b` boundary: `[A-Za-z0-9_]` (the contents
processed by this module are ASCII). -/
def isWordChar (c : Char) : Bool := c.isAlphanum || c = '_'

/-- Case-insensitive literal match of `pat` against a prefix of `s`,
returning the rest of `s` on success. -/
def matchCI : List Char → List Char → Option (List Char)
  | [], s => some s
  | _ :: _, [] => none
  | p :: ps, c :: cs => if p.toLower = c.toLower then matchCI ps cs else none

/-- True when the next character (if any) is not a word character —
the trailing `\b` test after a token that ends in a word character. -/
def noWordAhead : List Char → Bool
  | [] => true
  | c :: _ => !isWordChar c

/-- Try the alternatives of `\b(a₁|a₂|…)\b` in pattern order at the head
of `s`; the engine backtracks into the alternation when the trailing
boundary fails, so the first alternative that matches case-insensitively
AND is followed by a non-word character wins.  Returns the match length. -/
def tryAlts (alts : List String) (s : List Char) : Option ℕ :=
  match alts with
  | [] => none
  | a :: rest =>
    match matchCI a.data s with
    | some remaining =>
        if noWordAhead remaining then some a.data.length else tryAlts rest s
    | none => tryAlts rest s

/-- `re.findall` for the word-bounded alternation patterns: scan left to
right; at each position whose preceding character is not a word
character, try the alternation and on success emit the matched input
slice (the capture keeps the original casing) and continue after it.
`fuel` starts at the input length, which suffices because every step
consumes at least one character. -/
def findallAlts (alts : List String) : ℕ → Option Char → List Char → List String
  | 0, _, _ => []
  | _ + 1, _, [] => []
  | fuel + 1, prev, c :: cs =>
    if prev.elim true (fun p => !isWordChar p) then
      match tryAlts alts (c :: cs) with
      | some n =>
          ((c :: cs).take n).asString
            :: findallAlts alts fuel ((c :: cs).take n).getLast? ((c :: cs).drop n)
      | none => findallAlts alts fuel (some c) cs
    else findallAlts alts fuel (some c) cs

/-- First technology pattern's alternatives, in pattern order. -/
def techAlts1 : List String :=
  ["Java", "Python", "Scala", "Kotlin", "JavaScript", "TypeScript", "SQL",
   "React", "TensorFlow", "Spark", "AWS", "EMR", "DynamoDB", "S3",
   "ElasticSearch", "SageMaker", "Lambda", "Amber", "CloudFormation", "CDK",
   "Docker", "Kubernetes", "SpringMVC", "Bootstrap"]

/-- Second technology pattern's alternatives, in pattern order. -/
def techAlts2 : List String :=
  ["ML", "AI", "API", "ETL", "CI/CD", "DevOps", "SRE", "GDPR", "CCPA",
   "DMA", "A/B", "UI/UX"]

/-- Unit words of the first metric pattern, in pattern order. -/
def metricUnits : List String :=
  ["users", "customers", "countries", "engineers", "scientists", "services",
   "models", "requests", "TPS", "years", "months", "weeks", "days"]

/-- Membership in the character class `[M|B|K|TB|PB|GB]` under
IGNORECASE: the distinct characters M, B, K, T, P, G and the literal
bar. -/
def isClassChar1 (c : Char) : Bool :=
  c.toLower = 'm' || c.toLower = 'b' || c.toLower = 'k' || c.toLower = 't'
    || c.toLower = 'p' || c.toLower = 'g' || c.toLower = '|'

/-- Membership in the character class `[M|B|K]` under IGNORECASE. -/
def isClassChar2 (c : Char) : Bool :=
  c.toLower = 'm' || c.toLower = 'b' || c.toLower = 'k' || c.toLower = '|'

/-- Python's regex `\s` class (ASCII part). -/
def pyIsRegexSpace (c : Char) : Bool :=
  c = ' ' || c = '\t' || c = '\n' || c = '\r' || c = '\x0b' || c = '\x0c'

/-- First unit word (pattern order) matching case-insensitively at the
head of `s`; no unit is a prefix of another and nothing follows the
alternation, so no backtracking can fire.  Returns the match length. -/
def tryUnits : List String → List Char → Option ℕ
  | [], _ => none
  | u :: rest, s =>
    match matchCI u.data s with
    | some _ => some u.data.length
    | none => tryUnits rest s

/-- Match `\+?\s*(?:users|…)` at the head of `r`, returning the length.
`\+?` and `\s*` are effectively greedy-deterministic: a unit word starts
with a letter, so a plus or whitespace character can never be consumed
by a later element. -/
def matchPlusSpaceUnits (r : List Char) : Option ℕ :=
  let plusLen : ℕ := if r.head? = some '+' then 1 else 0
  let r2 := r.drop plusLen
  let wsLen := (r2.takeWhile pyIsRegexSpace).length
  match tryUnits metricUnits (r2.drop wsLen) with
  | some u => some (plusLen + wsLen + u)
  | none => none

/-- Match the first metric pattern
`\d+[M|B|K|TB|PB|GB]?\+?\s*(?:users|…)` at the head of `s`.  `\d+` is
greedy-deterministic (nothing later matches a digit); the optional
class character genuinely backtracks — a class letter may instead begin
the unit word (e.g. the m of "5models"). -/
def matchMetric1 (s : List Char) : Option ℕ :=
  let ds := s.takeWhile Char.isDigit
  if ds.length = 0 then none
  else
    let r := s.drop ds.length
    let withClass : Option ℕ :=
      match r with
      | c :: r1 =>
        if isClassChar1 c then
          (matchPlusSpaceUnits r1).map (fun n => ds.length + 1 + n)
        else none
      | [] => none
    match withClass with
    | some n => some n
    | none => (matchPlusSpaceUnits r).map (fun n => ds.length + n)

/-- Match the second metric pattern `\$\d+[M|B|K]?\+?` at the head of
`s` (all quantifiers greedy-deterministic: nothing follows them). -/
def matchMetric2 (s : List Char) : Option ℕ :=
  match s with
  | '$' :: r =>
    let ds := r.takeWhile Char.isDigit
    if ds.length = 0 then none
    else
      let r1 := r.drop ds.length
      let clLen : ℕ :=
        match r1 with
        | c :: _ => if isClassChar2 c then 1 else 0
        | [] => 0
      let plusLen : ℕ := if (r1.drop clLen).head? = some '+' then 1 else 0
      some (1 + ds.length + clLen + plusLen)
  | _ => none

/-- Match the third metric pattern `\d+%\+?` at the head of `s`. -/
def matchMetric3 (s : List Char) : Option ℕ :=
  let ds := s.takeWhile Char.isDigit
  if ds.length = 0 then none
  else
    match s.drop ds.length with
    | '%' :: r => some (ds.length + 1 + (if r.head? = some '+' then 1 else 0))
    | _ => none

/-- `re.findall` scanning loop for an unanchored pattern: attempt a
match at every position, emit the matched slice and continue after it.
`fuel` starts at the input length, which suffices because every step
consumes at least one character (all matchers return positive lengths). -/
def scanAll (matchAt : List Char → Option ℕ) : ℕ → List Char → List String
  | 0, _ => []
  | _ + 1, [] => []
  | fuel + 1, c :: cs =>
    match matchAt (c :: cs) with
    | some n =>
        ((c :: cs).take n).asString :: scanAll matchAt fuel ((c :: cs).drop n)
    | none => scanAll matchAt fuel cs

/-- The five `findall` match lists of `_extract_keywords`, in source
order: the two technology alternations, then the three metric patterns. -/
def keywordBatches (content : String) : List (List String) :=
  [findallAlts techAlts1 content.data.length none content.data,
   findallAlts techAlts2 content.data.length none content.data,
   scanAll matchMetric1 content.data.length content.data,
   scanAll matchMetric2 content.data.length content.data,
   scanAll matchMetric3 content.data.length content.data]

/-- One loop iteration of `_extract_keywords`:
`keywords.extend([m for m in matches if m not in keywords])`.  The
membership test sees only the keywords collected by earlier patterns
(the comprehension is evaluated before the extend), so duplicates
inside a single pattern's match list survive. -/
def extendDedup (prev ms : List String) : List String :=
  prev ++ ms.filter (fun m => !prev.contains m)

/-- `LegoBlockManager._extract_keywords`: fold the five match lists
through `extendDedup` and keep the first 15 entries. -/
def extract_keywords (content : String) : List String :=
  ((keywordBatches content).foldl extendDedup []).take 15

/-- Count of `k` in the first batch that mentions it (0 when none does):
the exact multiplicity `extendDedup` folding gives to `k`. -/
def firstBatchCount (k : String) : List (List String) → ℕ
  | [] => 0
  | b :: rest => if k ∈ b then b.count k else firstBatchCount k rest

/-! ## Theorems about the tax calculator -/

/-- C1: for gross 50000, pension 5%, plan1 student loan, under the default
2025/26 config, `calculate_net_salary` returns pension 2500, income tax 6950
(all of it basic-rate, on taxable income 34750), student loan 2154.15,
national insurance 2780 and net yearly pay 35615.85. -/
theorem C1_scenario_gross_50000 :
    (calculate_net_salary defaultTaxConfig 50000 (5/100) true "plan1").map
      (fun b => (b.pension, b.income_tax, b.tax_basic, b.tax_higher,
                 b.tax_additional, b.student_loan, b.national_insurance,
                 b.net_yearly))
    = some (2500, 6950, 6950, 0, 0, 215415/100, 2780, 3561585/100) := by
  have hp : pyLower "plan1" = "plan1" := by decide
  simp only [calculate_net_salary, calculate_student_loan,
    calculate_income_tax, calculate_national_insurance, defaultTaxConfig,
    hp, if_pos rfl, if_true]
  norm_num

/-- C2 counterexample: at gross = -100 with pension_pct = 0.05 the claim
fails — the pension deduction is -5 (not 0) and net_yearly is -95 (not the
gross -100). -/
theorem C2_cex_negative_gross :
    (calculate_net_salary defaultTaxConfig (-100) (5/100) true "plan1").map
      (fun b => (b.pension, b.net_yearly)) = some (-5, -95)
    ∧ (-5 : ℚ) ≠ 0 ∧ (-95 : ℚ) ≠ -100 := by
  refine ⟨?_, by norm_num, by norm_num⟩
  have hp : pyLower "plan1" = "plan1" := by decide
  simp only [calculate_net_salary, calculate_student_loan,
    calculate_income_tax, calculate_national_insurance, defaultTaxConfig,
    hp, if_pos rfl, if_true]
  norm_num

/-- C2 (amended): for gross ≤ 0 (pension_pct at most 1, the configured
allowance and plan thresholds nonnegative, and the student-loan setting
either disabled or naming a recognized plan), income tax, national
insurance and student loan are all 0, while the pension deduction is
`gross * pension_pct` and `net_yearly = gross - gross * pension_pct`
(so the original claim's consequent holds exactly when gross = 0 or
pension_pct = 0). -/
theorem C2_nonpositive_gross (cfg : TaxConfig) (gross pension_pct : ℚ)
    (incl : Bool) (plan : String)
    (hg : gross ≤ 0) (hpct : pension_pct ≤ 1)
    (hpa : 0 ≤ cfg.personal_allowance)
    (ht1 : 0 ≤ cfg.student_loan_plan1_threshold)
    (ht2 : 0 ≤ cfg.student_loan_plan2_threshold)
    (hplan : incl = false ∨ pyLower plan = "plan1" ∨ pyLower plan = "plan2") :
    (calculate_net_salary cfg gross pension_pct incl plan).map
      (fun b => (b.income_tax, b.national_insurance, b.student_loan, b.pension,
                 b.net_yearly))
    = some (0, 0, 0, gross * pension_pct, gross - gross * pension_pct) := by
  have htax : gross - cfg.personal_allowance - gross * pension_pct ≤ 0 := by
    nlinarith [mul_nonneg (neg_nonneg.mpr hg) (sub_nonneg.mpr hpct)]
  have hsl : (if incl then calculate_student_loan cfg gross plan else some 0)
      = some 0 := by
    cases incl with
    | false => rfl
    | true =>
      rw [if_pos rfl]
      rcases hplan with h | h | h
      · exact absurd h (by decide)
      · unfold calculate_student_loan
        rw [h, if_pos rfl, if_pos (le_trans hg ht1)]
      · unfold calculate_student_loan
        rw [h, if_neg (by decide), if_pos rfl, if_pos (le_trans hg ht2)]
  simp only [calculate_net_salary, hsl, calculate_income_tax,
    calculate_national_insurance, if_pos htax, Option.map]
  simp only [Option.some.injEq, Prod.mk.injEq]
  refine ⟨trivial, trivial, trivial, trivial, by ring⟩

/-- C2 witness: the amended theorem applied at gross = 0. -/
theorem C2_nonpositive_gross_witness :
    ((0:ℚ) ≤ 0 ∧ (5/100 : ℚ) ≤ 1)
    ∧ (calculate_net_salary defaultTaxConfig 0 (5/100) true "plan1").map
        (fun b => (b.income_tax, b.national_insurance, b.student_loan,
                   b.pension, b.net_yearly))
      = some (0, 0, 0, 0 * (5/100), 0 - 0 * (5/100)) :=
  ⟨⟨le_refl 0, by norm_num⟩,
   C2_nonpositive_gross defaultTaxConfig 0 (5/100) true "plan1"
     (le_refl 0) (by norm_num) (by norm_num [defaultTaxConfig])
     (by norm_num [defaultTaxConfig]) (by norm_num [defaultTaxConfig])
     (Or.inr (Or.inl (by decide)))⟩

/-- C3: national insurance charges the portion of income above
`ni_threshold` at `ni_rate_low` and the portion at or below it at
`ni_rate_high` (the high rate on the lower band), returns 0 on
nonpositive income, and never counts a span twice: the total is exactly
the sum of the two bands. -/
theorem C3_ni_two_band (cfg : TaxConfig) (income : ℚ) :
    calculate_national_insurance cfg income
    = if income ≤ 0 then 0
      else max 0 (income - cfg.ni_threshold) * cfg.ni_rate_low
           + min income cfg.ni_threshold * cfg.ni_rate_high := by
  unfold calculate_national_insurance
  rcases le_or_lt income 0 with h0 | h0
  · rw [if_pos h0, if_pos h0]
  · rw [if_neg (not_le.mpr h0), if_neg (not_le.mpr h0)]
    rcases le_or_lt income cfg.ni_threshold with ht | ht
    · rw [if_neg (not_lt.mpr ht), if_neg (not_lt.mpr ht),
        max_eq_left (by linarith), min_eq_left ht]
      ring
    · rw [if_pos ht, if_pos ht, max_eq_right (by linarith),
        min_eq_right (le_of_lt ht)]

/-- C6: student-loan repayment is `max 0 (gross - threshold) * rate` with
the plan's own constants for a plan recognized (after lowercasing) as
plan1 or plan2 — hence exactly 0 at and below the threshold — and an
unrecognized plan identifier is a fatal error (`none`), never a default. -/
theorem C6_student_loan_formula (cfg : TaxConfig) (gross : ℚ) (plan : String) :
    calculate_student_loan cfg gross plan
    = if pyLower plan = "plan1" then
        some (max 0 (gross - cfg.student_loan_plan1_threshold)
              * cfg.student_loan_plan1_rate)
      else if pyLower plan = "plan2" then
        some (max 0 (gross - cfg.student_loan_plan2_threshold)
              * cfg.student_loan_plan2_rate)
      else none := by
  unfold calculate_student_loan
  have key : ∀ t r : ℚ, (if gross ≤ t then (0:ℚ) else (gross - t) * r)
      = max 0 (gross - t) * r := by
    intro t r
    rcases le_or_lt gross t with h | h
    · rw [if_pos h, max_eq_left (by linarith), zero_mul]
    · rw [if_neg (not_le.mpr h), max_eq_right (by linarith)]
  rw [key, key]

/-- C7 counterexample: `recommend_budget 0` raises (embedded as `none`) —
it does not return a zero-valued budget. -/
theorem C7_cex_zero_income : recommend_budget 0 = none := by
  simp [recommend_budget, decDiv]

/-- C7 (amended): `recommend_budget` has no zero guard — the category
percentage computation divides by `monthly_income`, so the call fails
exactly when the monthly income is 0. -/
theorem C7_budget_fails_iff_zero (monthly_income : ℚ) :
    recommend_budget monthly_income = none ↔ monthly_income = 0 := by
  rcases eq_or_ne monthly_income 0 with h | h
  · simp [recommend_budget, decDiv, h]
  · simp [recommend_budget, decDiv, h]

/-- C10: plan matching is case-insensitive — any identifier lowercasing
to "plan1" (resp. "plan2") behaves exactly like the lowercase identifier,
and an identifier lowercasing to neither raises the unknown-plan error. -/
theorem C10_plan_case_insensitive (cfg : TaxConfig) (gross : ℚ) (plan : String) :
    (pyLower plan = "plan1" →
      calculate_student_loan cfg gross plan
        = calculate_student_loan cfg gross "plan1")
    ∧ (pyLower plan = "plan2" →
      calculate_student_loan cfg gross plan
        = calculate_student_loan cfg gross "plan2")
    ∧ (pyLower plan ≠ "plan1" → pyLower plan ≠ "plan2" →
      calculate_student_loan cfg gross plan = none) := by
  unfold calculate_student_loan
  refine ⟨fun h1 => ?_, fun h2 => ?_, fun h1 h2 => ?_⟩
  · rw [h1, (by decide : pyLower "plan1" = "plan1")]
  · rw [h2, (by decide : pyLower "plan2" = "plan2")]
  · rw [if_neg h1, if_neg h2]

/-- C10 witness: the theorem applied to the uppercase identifier "PLAN2"
at gross 30000. -/
theorem C10_plan_case_insensitive_witness :
    pyLower "PLAN2" = "plan2"
    ∧ calculate_student_loan defaultTaxConfig 30000 "PLAN2"
        = calculate_student_loan defaultTaxConfig 30000 "plan2" :=
  ⟨by decide,
   (C10_plan_case_insensitive defaultTaxConfig 30000 "PLAN2").2.1 (by decide)⟩

/-! ## Stable-sort lemmas -/

/-- Inserting with `insertDescBy` permutes `x :: l`. -/
theorem perm_insertDescBy {α β : Type} [LinearOrder β] (key : α → β) (x : α)
    (l : List α) : List.Perm (insertDescBy key x l) (x :: l) := by
  induction l with
  | nil => exact List.Perm.refl _
  | cons y ys ih =>
    unfold insertDescBy
    split_ifs with h
    · exact List.Perm.refl _
    · exact (List.Perm.cons y ih).trans (List.Perm.swap x y ys)

/-- `sortDescBy` permutes its input. -/
theorem perm_sortDescBy {α β : Type} [LinearOrder β] (key : α → β)
    (l : List α) : List.Perm (sortDescBy key l) l := by
  induction l with
  | nil => exact List.Perm.refl _
  | cons x xs ih => exact (perm_insertDescBy key x _).trans (List.Perm.cons x ih)

/-- `insertDescBy` preserves descending sortedness. -/
theorem sorted_insertDescBy {α β : Type} [LinearOrder β] (key : α → β) (x : α)
    (l : List α) (hl : l.Pairwise (fun a b => key b ≤ key a)) :
    (insertDescBy key x l).Pairwise (fun a b => key b ≤ key a) := by
  induction l with
  | nil => simp [insertDescBy]
  | cons y ys ih =>
    rw [List.pairwise_cons] at hl
    obtain ⟨hy, hys⟩ := hl
    unfold insertDescBy
    split_ifs with h
    · refine List.Pairwise.cons ?_ (List.Pairwise.cons hy hys)
      intro z hz
      rcases List.mem_cons.mp hz with rfl | hz
      · exact h
      · exact le_trans (hy z hz) h
    · refine List.Pairwise.cons ?_ (ih hys)
      intro z hz
      have hz2 : z ∈ x :: ys := (perm_insertDescBy key x ys).mem_iff.mp hz
      rcases List.mem_cons.mp hz2 with rfl | hz2
      · exact (not_le.mp h).le
      · exact hy z hz2

/-- `sortDescBy` output is descending in `key`. -/
theorem sorted_sortDescBy {α β : Type} [LinearOrder β] (key : α → β)
    (l : List α) :
    (sortDescBy key l).Pairwise (fun a b => key b ≤ key a) := by
  induction l with
  | nil => simp [sortDescBy]
  | cons x xs ih => exact sorted_insertDescBy key x _ ih

/-- Stability of the insertion step: the elements with any fixed key
value keep their relative order. -/
theorem filter_insertDescBy {α β : Type} [LinearOrder β] (key : α → β)
    (x : α) (l : List α) (v : β) :
    (insertDescBy key x l).filter (fun a => decide (key a = v))
      = ((x :: l).filter (fun a => decide (key a = v))) := by
  induction l with
  | nil => rfl
  | cons y ys ih =>
    unfold insertDescBy
    split_ifs with h
    · rfl
    · have hxy := not_le.mp h
      by_cases hy : key y = v
      · have hx : ¬ key x = v := fun hx => absurd (hx.trans hy.symm) (ne_of_lt hxy)
        simp [List.filter_cons, ih, hy, hx]
      · simp [List.filter_cons, ih, hy]

/-- Stability of `sortDescBy`: filtering the output at any fixed key
value returns the input's elements with that key, in input order. -/
theorem filter_sortDescBy {α β : Type} [LinearOrder β] (key : α → β)
    (l : List α) (v : β) :
    (sortDescBy key l).filter (fun a => decide (key a = v))
      = l.filter (fun a => decide (key a = v)) := by
  induction l with
  | nil => rfl
  | cons x xs ih =>
    unfold sortDescBy
    rw [filter_insertDescBy]
    simp [List.filter_cons, ih]

/-! ## Theorems about ranking and selection -/

/-- C4: a requirement phrase contributes exactly one of the tier bonuses
3.0, 2.0, 1.5 or 0 to a block's score — never a sum of tiers — and a
phrase found in the content contributes 3.0 regardless of whether it
also appears in the title or keywords. -/
theorem C4_requirement_single_tier (block : LegoBlock) (req : String) :
    (reqContribution block req = 3 ∨ reqContribution block req = 2
      ∨ reqContribution block req = 3/2 ∨ reqContribution block req = 0)
    ∧ (strContains (pyLower block.content) (pyLower req) = true →
        reqContribution block req = 3) := by
  constructor
  · unfold reqContribution
    split_ifs <;> norm_num
  · intro h
    unfold reqContribution
    rw [if_pos h]

/-- C4 witness: "Python" occurs in both the content and the title of
`sampleBlock`, and its contribution is 3.0 (not 5.0). -/
theorem C4_requirement_single_tier_witness :
    strContains (pyLower sampleBlock.content) (pyLower "Python") = true
    ∧ strContains (pyLower sampleBlock.title) (pyLower "Python") = true
    ∧ reqContribution sampleBlock "Python" = 3 :=
  ⟨by decide, by decide,
   (C4_requirement_single_tier sampleBlock "Python").2 (by decide)⟩

/-- C8: `rank_blocks` returns exactly the scored blocks (a permutation
of the input pairing), sorted by score descending, and stably: for every
score value, the blocks attaining it appear in input order. -/
theorem C8_rank_blocks_stable (blocks : List LegoBlock)
    (job_requirements required_skills : List String)
    (preferred_role : Option String) :
    List.Perm (rank_blocks blocks job_requirements required_skills preferred_role)
      (blocks.map (fun b =>
        (b, blockScore b job_requirements required_skills preferred_role)))
    ∧ (rank_blocks blocks job_requirements required_skills preferred_role).Pairwise
        (fun a b => b.2 ≤ a.2)
    ∧ ∀ s : ℚ,
        (rank_blocks blocks job_requirements required_skills preferred_role).filter
          (fun p => decide (p.2 = s))
        = (blocks.map (fun b =>
            (b, blockScore b job_requirements required_skills preferred_role))).filter
          (fun p => decide (p.2 = s)) :=
  ⟨perm_sortDescBy _ _, sorted_sortDescBy _ _, fun _ => filter_sortDescBy _ _ _⟩

/-- C5: with no LLM client, block selection over a non-empty universe in
which some block overlaps the job's skill/requirement/role keywords —
through its skills, its keywords, or its title-and-content text — never
returns an empty result (assuming at least one block is requested; the
caller's default is 6). -/
theorem C5_selection_nonempty (job : Job) (all_blocks : List LegoBlock)
    (max_blocks : ℕ) (b : LegoBlock)
    (hmax : 1 ≤ max_blocks) (hb : b ∈ all_blocks)
    (hoverlap :
      (∃ s ∈ b.skills, (jobKeywords job).contains (pyLower s) = true)
      ∨ (∃ k ∈ b.keywords, (jobKeywords job).contains (pyLower k) = true)
      ∨ (∃ k ∈ jobKeywords job,
          strContains (pyLower (b.title ++ " " ++ b.content)) k = true)) :
    select_blocks_noLLM job all_blocks max_blocks ≠ [] := by
  have hne : all_blocks ≠ [] := by rintro rfl; exact (List.not_mem_nil b) hb
  have hscore : 0 < fallbackScore job b := by
    unfold fallbackScore
    rcases hoverlap with h | h | h
    · have h1 : 0 < b.skills.countP
          (fun s => (jobKeywords job).contains (pyLower s)) :=
        List.countP_pos_iff.mpr h
      omega
    · have h1 : 0 < b.keywords.countP
          (fun k => (jobKeywords job).contains (pyLower k)) :=
        List.countP_pos_iff.mpr h
      omega
    · have h1 : 0 < (jobKeywords job).countP
          (fun k => strContains (pyLower (b.title ++ " " ++ b.content)) k) :=
        List.countP_pos_iff.mpr h
      omega
  unfold select_blocks_noLLM
  rw [if_neg hne]
  unfold select_blocks_fallback
  have hmem : (fallbackScore job b, b)
      ∈ (all_blocks.map (fun c => (fallbackScore job c, c))).filter
        (fun p => 0 < p.1) := by
    rw [List.mem_filter]
    refine ⟨List.mem_map.mpr ⟨b, hb, rfl⟩, ?_⟩
    simpa using hscore
  apply List.ne_nil_of_length_pos
  rw [List.length_map, List.length_take]
  have hlen : 0 < ((all_blocks.map (fun c => (fallbackScore job c, c))).filter
      (fun p => 0 < p.1)).length :=
    List.length_pos.mpr (List.ne_nil_of_mem hmem)
  have hperm := (perm_sortDescBy (fun p : ℕ × LegoBlock => p.1)
    ((all_blocks.map (fun b => (fallbackScore job b, b))).filter
      (fun p => 0 < p.1))).length_eq
  omega

/-- C5 witness: a one-block universe whose skills overlap the sample
job's parsed skills yields a non-empty selection. -/
theorem C5_selection_nonempty_witness :
    (1 ≤ 6 ∧ sampleBlock ∈ [sampleBlock]
      ∧ ∃ s ∈ sampleBlock.skills,
          (jobKeywords sampleJob).contains (pyLower s) = true)
    ∧ select_blocks_noLLM sampleJob [sampleBlock] 6 ≠ [] :=
  ⟨⟨by norm_num, List.mem_singleton.mpr rfl, by decide⟩,
   C5_selection_nonempty sampleJob [sampleBlock] 6 sampleBlock
     (by norm_num) (List.mem_singleton.mpr rfl) (Or.inl (by decide))⟩

/-! ## Theorems about keyword extraction -/

/-- Multiplicity of a key through one `extendDedup` step: batches whose
key is already collected contribute nothing, otherwise the batch's full
multiplicity survives. -/
theorem count_extendDedup (prev ms : List String) (k : String) :
    (extendDedup prev ms).count k
      = prev.count k + (if k ∈ prev then 0 else ms.count k) := by
  unfold extendDedup
  rw [List.count_append]
  congr 1
  by_cases hk : k ∈ prev
  · rw [if_pos hk, List.count_eq_zero]
    intro hmem
    have hpred := (List.mem_filter.mp hmem).2
    simp at hpred
    exact hpred hk
  · rw [if_neg hk]
    exact List.count_filter (by simp [hk])

/-- Folding `extendDedup` gives each key exactly the multiplicity of the
first batch that contains it. -/
theorem count_foldl_extendDedup (k : String) (bs : List (List String)) :
    ∀ prev : List String,
      (bs.foldl extendDedup prev).count k
        = prev.count k + (if k ∈ prev then 0 else firstBatchCount k bs) := by
  induction bs with
  | nil => intro prev; by_cases hp : k ∈ prev <;> simp [firstBatchCount, hp]
  | cons b rest ih =>
    intro prev
    rw [List.foldl_cons, ih (extendDedup prev b), count_extendDedup]
    have hfb : firstBatchCount k (b :: rest)
        = if k ∈ b then b.count k else firstBatchCount k rest := rfl
    rw [hfb]
    by_cases hp : k ∈ prev
    · have hmem : k ∈ extendDedup prev b := List.mem_append_left _ hp
      rw [if_pos hp, if_pos hp, if_pos hmem]
    · rw [if_neg hp, if_neg hp]
      by_cases hb : k ∈ b
      · have hmem : k ∈ extendDedup prev b := by
          refine List.mem_append_right _ ?_
          rw [List.mem_filter]
          exact ⟨hb, by simp [hp]⟩
        rw [if_pos hmem, if_pos hb]
        omega
      · have hnot : k ∉ extendDedup prev b := by
          intro hmem
          rcases List.mem_append.mp hmem with h | h
          · exact hp h
          · exact hb (List.mem_filter.mp h).1
        rw [if_neg hnot, if_neg hb]
        have hz : b.count k = 0 := List.count_eq_zero.mpr hb
        omega

/-- The first contributing batch's multiplicity is at most the maximum
batch multiplicity. -/
theorem firstBatchCount_le_max (k : String) (bs : List (List String)) :
    firstBatchCount k bs ≤ bs.foldr (fun b acc => max (b.count k) acc) 0 := by
  induction bs with
  | nil => simp [firstBatchCount]
  | cons b rest ih =>
    rw [List.foldr_cons]
    have hfb : firstBatchCount k (b :: rest)
        = if k ∈ b then b.count k else firstBatchCount k rest := rfl
    rw [hfb]
    by_cases hb : k ∈ b
    · rw [if_pos hb]; exact le_max_left _ _
    · rw [if_neg hb]; exact le_trans ih (le_max_right _ _)

/-- C9 counterexample: the content "Java Java" yields the keyword list
["Java", "Java"], which is not duplicate-free — the comprehension's
membership test sees only keywords from earlier pattern batches, so a
token matched twice by one pattern is kept twice. -/
theorem C9_cex_duplicate_keyword :
    extract_keywords "Java Java" = ["Java", "Java"]
    ∧ ¬ (extract_keywords "Java Java").Nodup := by
  exact ⟨by decide, by decide⟩

/-- C9 (amended): the keyword list has at most 15 entries, and
de-duplication holds across pattern batches — every keyword occurs in
the result at most as often as in the single (first) batch that
contributed it, so no repeats arise between patterns, though duplicates
within one pattern's match list survive. -/
theorem C9_keywords_capped_batch_deduped (content k : String) :
    (extract_keywords content).length ≤ 15
    ∧ (extract_keywords content).count k
        ≤ (keywordBatches content).foldr (fun b acc => max (b.count k) acc) 0 := by
  constructor
  · exact List.length_take_le 15 _
  · refine le_trans ((List.take_sublist 15 _).count_le k) ?_
    rw [count_foldl_extendDedup k _ []]
    simpa using firstBatchCount_le_max k (keywordBatches content)

end CvMaker
